import Mathlib

/-!
Shallow embedding of the availability & booking engine of the Booking SaaS API
(src/main.py, src/schemas.py).

Modelling conventions:
* Python ints are `Int`; Python floor division `//` is `Int.fdiv`.
* Instants (ISO UTC timestamps stored in `start_iso`/`end_iso`) are minutes
  since the epoch 1970-01-01T00:00:00Z, as `Int`.  A civil date (YYYY-MM-DD)
  is its day count since 1970-01-01, as `Int`; 1970-01-01 was a Thursday
  (Python weekday 3, Monday = 0), so `weekday(date) = (date + 3) % 7`,
  matching `datetime.fromisoformat(date + "T00:00:00+00:00").weekday()`.
* An HH:MM string is its minute-of-day value in `[0, 1440)` (`strftime "%H:%M"`
  of an instant t is `t % 1440` under this bijection).
* The Mongo `appointment` collection is a `List Appointment`; the regex filter
  `start_iso: {$regex: ^date}` on UTC ISO strings selects exactly the
  appointments whose start instant lies in `[1440*date, 1440*date + 1440)`.
* The `while` loop of `generate_slots` is embedded with explicit fuel
  (`slotLoop`); `loopFuel` is the canonical fuel, provably sufficient whenever
  the slot increment is at least 1 (see the termination theorem for C10).
-/

namespace BookingSaaS

/-- Appointment lifecycle status (schemas.py, `Appointment.status`). -/
inductive Status where
  | pending
  | confirmed
  | canceled
  | completed
deriving DecidableEq, BEq, Repr

/-- Business document: the fields the booking engine reads (schemas.py `Business`). -/
structure Business where
  id : String
  slug : String
  currency : String := "usd"
  deposit_percent_default : Int := 0
deriving DecidableEq, Repr

/-- Staff document (schemas.py `Staff`); `book` only checks existence by id. -/
structure Staff where
  id : String
  business_id : String
  active : Bool := true
deriving DecidableEq, Repr

/-- Service document (schemas.py `Service`). -/
structure Service where
  id : String
  business_id : String
  price_cents : Int
  duration_min : Int
  buffer_before_min : Int := 0
  buffer_after_min : Int := 0
  deposit_percent_override : Option Int := none
deriving DecidableEq, Repr

/-- One open interval inside a day, minutes from midnight (schemas.py `AvailabilityBlock`). -/
structure AvailabilityBlock where
  start_min : Int
  end_min : Int
deriving DecidableEq, Repr

/-- Weekly availability of one staff member (schemas.py `Availability`).
`weekly` maps weekday index (0 = Monday .. 6 = Sunday) to that day's blocks;
the Python dict is an association list here (one key type, per spec §9 the
string/int key duality of Mongo is a representation detail). -/
structure Availability where
  business_id : String
  staff_id : String
  weekly : List (Int × List AvailabilityBlock) := []
  slot_increment_min : Int := 15
deriving DecidableEq, Repr

/-- Appointment document (schemas.py `Appointment`); `start_min`/`end_min` are
the parsed instants of `start_iso`/`end_iso` in minutes since the epoch. -/
structure Appointment where
  business_id : String
  staff_id : String
  service_id : String
  customer_name : String := ""
  customer_email : Option String := none
  customer_phone : Option String := none
  start_min : Int
  end_min : Int
  status : Status := .pending
  amount_cents_total : Int := 0
  amount_cents_due_now : Int := 0
  currency : String := "usd"
  stripe_checkout_session_id : Option String := none
deriving DecidableEq, Repr

/-- The persistent state the booking engine reads (the Mongo collections). -/
structure Env where
  businesses : List Business := []
  staffs : List Staff := []
  services : List Service := []
  availabilities : List Availability := []
  appointments : List Appointment := []
deriving Repr

/-- Error taxonomy of the HTTP layer (`HTTPException` status codes raised in main.py). -/
inductive ApiError where
  | notFound (msg : String)
  | badRequest (msg : String)
  | conflict (msg : String)
deriving DecidableEq, Repr

/-- main.py `compute_deposit_cents`: effective percent is the service override
if present, else the business default; Python `//` is floor division. -/
def effectiveDepositPercent (biz : Business) (service : Service) : Int :=
  match service.deposit_percent_override with
  | some pct => pct
  | none => biz.deposit_percent_default

def compute_deposit_cents (biz : Business) (service : Service) : Int :=
  Int.fdiv (service.price_cents * effectiveDepositPercent biz service) 100

/-- Total blocked span of a service: duration plus both buffers
(`duration_total` in main.py `generate_slots` and `book`). -/
def duration_total (service : Service) : Int :=
  service.duration_min + service.buffer_before_min + service.buffer_after_min

/-- Python `weekday()` of a date given as days since 1970-01-01 (a Thursday). -/
def dateWeekday (date : Int) : Int :=
  (date + 3) % 7

/-- `datetime.fromisoformat(date + "T00:00:00+00:00")` as an instant in minutes. -/
def dayStartMin (date : Int) : Int :=
  1440 * date

/-- `av["weekly"].get(weekday) or []` (missing day yields the empty list). -/
def weeklyLookup (weekly : List (Int × List AvailabilityBlock)) (d : Int) :
    List AvailabilityBlock :=
  match weekly.find? (fun kv => kv.1 == d) with
  | some kv => kv.2
  | none => []

/-- Status filter `{"$in": ["pending", "confirmed"]}` of the appointment query. -/
def isActiveStatus (s : Status) : Bool :=
  s == .pending || s == .confirmed

/-- `start_iso: {$regex: ^date}`: the appointment's start instant falls on the
requested UTC date. -/
def onDate (date : Int) (a : Appointment) : Bool :=
  decide (dayStartMin date ≤ a.start_min) && decide (a.start_min < dayStartMin date + 1440)

/-- The appointment query of main.py `generate_slots` (lines 234-239). -/
def fetchAppointments (store : List Appointment) (business_id staff_id : String)
    (date : Int) : List Appointment :=
  store.filter (fun a =>
    a.business_id == business_id && a.staff_id == staff_id &&
      isActiveStatus a.status && onDate date a)

/-- Half-open interval overlap test (main.py `overlaps`, line 241-242). -/
def overlaps (a_start a_end b_start b_end : Int) : Bool :=
  !(decide (a_end ≤ b_start) || decide (a_start ≥ b_end))

/-- The inner `for ap in appts` conflict scan of `generate_slots` (lines 258-264). -/
def hasConflict (appts : List Appointment) (slot_start slot_end : Int) : Bool :=
  appts.any (fun ap => overlaps slot_start slot_end ap.start_min ap.end_min)

/-- The `while t + duration_total <= end_min` loop of `generate_slots`
(lines 253-267), with explicit fuel bounding the number of iterations.
Each pass appends the candidate start `day_start + t` unless it conflicts,
then advances `t` by `increment`. -/
def slotLoop (appts : List Appointment) (day_start dur increment end_min : Int) :
    Nat → Int → List Int
  | 0, _ => []
  | fuel + 1, t =>
    if t + dur ≤ end_min then
      (if hasConflict appts (day_start + t) (day_start + t + dur) then []
        else [day_start + t]) ++
        slotLoop appts day_start dur increment end_min fuel (t + increment)
    else []

/-- Canonical fuel for one block: when `increment ≥ 1` the loop runs at most
`end_min - dur - start_min + 1` times (one per integer t it can visit). -/
def loopFuel (start_min end_min dur : Int) : Nat :=
  (end_min - dur - start_min).toNat + 1

/-- Slots contributed by a single availability block (the per-block body of
the `for block in day_blocks` loop, lines 250-267). -/
def blockSlots (appts : List Appointment) (day_start dur increment : Int)
    (block : AvailabilityBlock) : List Int :=
  slotLoop appts day_start dur increment block.end_min
    (loopFuel block.start_min block.end_min dur) block.start_min

/-- main.py `generate_slots` (lines 224-268): list of bookable start instants
for (business, staff, service) on `date`, stepping by `increment`. -/
def generate_slots (store : List Appointment) (avs : List Availability)
    (biz : Business) (staff_id : String) (service : Service) (date : Int)
    (increment : Int) : List Int :=
  match avs.find? (fun av => av.business_id == biz.id && av.staff_id == staff_id) with
  | none => []
  | some av =>
    let day_blocks := weeklyLookup av.weekly (dateWeekday date)
    let appts := fetchAppointments store biz.id staff_id date
    let day_start := dayStartMin date
    day_blocks.flatMap (fun block =>
      blockSlots appts day_start (duration_total service) increment block)

/-- Increment used by the `slots` endpoint:
`av.get("slot_increment_min", 15) if av else 15` (line 280). -/
def slotIncrementFor (avs : List Availability) (biz : Business) (staff_id : String) : Int :=
  match avs.find? (fun av => av.business_id == biz.id && av.staff_id == staff_id) with
  | some av => av.slot_increment_min
  | none => 15

/-- main.py `slots` endpoint (lines 271-284): resolves business and service,
generates slots and formats each start instant as HH:MM (minute of day). -/
def slots (env : Env) (slug service_id staff_id : String) (date : Int) :
    Except ApiError (List Int) :=
  match env.businesses.find? (fun b => b.slug == slug) with
  | none => .error (.notFound "Business not found")
  | some biz =>
    match env.services.find? (fun s => s.id == service_id) with
    | none => .error (.notFound "Service not found")
    | some service =>
      let increment := slotIncrementFor env.availabilities biz staff_id
      let times := generate_slots env.appointments env.availabilities biz staff_id
        service date increment
      .ok (times.map (fun t => t % 1440))

/-- Body of POST /api/b/{slug}/book (main.py `BookRequest`); `date` is days
since the epoch, `time_hm` the HH:MM string as minute of day. -/
structure BookRequest where
  business_slug : String
  service_id : String
  staff_id : String
  date : Int
  time_hm : Int
  customer_name : String := ""
  customer_email : Option String := none
  customer_phone : Option String := none
deriving Repr

/-- Outcome of the payment collaborator in `book` (lines 328-360):
`unavailable` = Stripe library or secret key missing (the `if stripe and
STRIPE_SECRET` guard is false); `sessionError` = `Session.create` raised;
`session` = a checkout session with its URL and id was created. -/
inductive PaymentOutcome where
  | unavailable
  | sessionError (msg : String)
  | session (url sid : String)
deriving DecidableEq, Repr

/-- What a successful `book` call leaves behind: the persisted appointment
(whose generated document id the route returns), the checkout URL (or none),
and the appointment collection after the insert (and the session-id update). -/
structure BookResult where
  appointment : Appointment
  checkout_url : Option String
  appointments : List Appointment
deriving DecidableEq, Repr

/-- The `Appointment(...)` constructed by `book` (main.py lines 297-325):
start is date + "T" + time as a UTC instant, end adds duration and both
buffers, the deposit falls back to the full price when it is not positive. -/
def bookedAppointment (biz : Business) (service : Service) (p : BookRequest) :
    Appointment :=
  { business_id := biz.id
    staff_id := p.staff_id
    service_id := p.service_id
    customer_name := p.customer_name
    customer_email := p.customer_email
    customer_phone := p.customer_phone
    start_min := dayStartMin p.date + p.time_hm
    end_min := dayStartMin p.date + p.time_hm + duration_total service
    status := .pending
    amount_cents_total := service.price_cents
    amount_cents_due_now :=
      if compute_deposit_cents biz service ≤ 0 then service.price_cents
      else compute_deposit_cents biz service
    currency := biz.currency }

/-- The success path of `book` after the availability re-check passed
(main.py lines 307-362): persist the pending appointment, then attempt the
payment session; a created session contributes the checkout URL and the
session id written back onto the stored appointment, anything else leaves
no payment reference. -/
def bookSuccess (env : Env) (biz : Business) (service : Service)
    (pay : PaymentOutcome) (p : BookRequest) : BookResult :=
  let appt := bookedAppointment biz service p
  match pay with
  | .session url sid =>
    let appt' := { appt with stripe_checkout_session_id := some sid }
    { appointment := appt'
      checkout_url := some url
      appointments := env.appointments ++ [appt'] }
  | _ =>
    { appointment := appt
      checkout_url := none
      appointments := env.appointments ++ [appt] }

/-- main.py `book` (lines 287-362). Resolves business by slug (404), service
and staff by id (400), computes start/end instants, re-validates the requested
time against the freshly generated slot list (409 on miss), computes the
deposit, persists a pending appointment, and attempts the payment session
(failures degrade to `checkout_url = none`, never an error). -/
def book (env : Env) (pay : PaymentOutcome) (p : BookRequest) :
    Except ApiError BookResult :=
  match env.businesses.find? (fun b => b.slug == p.business_slug) with
  | none => .error (.notFound "Business not found")
  | some biz =>
    match env.services.find? (fun s => s.id == p.service_id),
        env.staffs.find? (fun s => s.id == p.staff_id) with
    | some service, some _staff =>
      match slots env p.business_slug p.service_id p.staff_id p.date with
      | .error e => .error e
      | .ok times =>
        if p.time_hm ∈ times then .ok (bookSuccess env biz service pay p)
        else .error (.conflict "Selected time is no longer available")
    | _, _ => .error (.badRequest "Invalid staff or service")

/-- Reminder channel (schemas.py `Reminder.kind`). -/
inductive ReminderKind where
  | email
  | sms
deriving DecidableEq, BEq, Repr

/-- Reminder lifecycle status (schemas.py `Reminder.status`). -/
inductive ReminderStatus where
  | queued
  | sent
  | failed
deriving DecidableEq, BEq, Repr

/-- Reminder document (schemas.py `Reminder`). -/
structure Reminder where
  business_id : String
  appointment_id : String
  kind : ReminderKind
  status : ReminderStatus := .queued
  last_error : Option String := none
deriving DecidableEq, Repr

/-- Environment-derived notification configuration read at the top of
main.py `send_reminders` (lines 485-488), plus whether the optional Twilio
client import succeeded (line 24-27). -/
structure NotifyConfig where
  resend_key : Option String := none
  tw_sid : Option String := none
  tw_token : Option String := none
  tw_from : Option String := none
  twilioAvailable : Bool := false
deriving DecidableEq, Repr

/-- Whether a notification provider is configured for a channel: the Resend
key for email; the full Twilio credential triple and an importable client
for SMS. -/
def providerConfigured (cfg : NotifyConfig) : ReminderKind → Bool
  | .email => cfg.resend_key.isSome
  | .sms =>
    cfg.tw_sid.isSome && cfg.tw_token.isSome && cfg.tw_from.isSome && cfg.twilioAvailable

/-- Outcome of one provider call: `raised msg` models a thrown exception
(caught by the surrounding `except` and recorded as `failed`), `ok` the
call's return value. -/
inductive CallOutcome (α : Type) where
  | raised (msg : String)
  | ok (v : α)
deriving DecidableEq, Repr

/-- The per-reminder body of main.py `send_reminders` (lines 494-536):
result is the reminder's new status and `last_error` field.  `findAppt`
models `db["appointment"].find_one` by id; `emailCall` the Resend POST
(status code and response text); `smsCall` the Twilio message creation. -/
def dispatchReminder (cfg : NotifyConfig) (emailCall : CallOutcome (Int × String))
    (smsCall : CallOutcome Unit) (findAppt : String → Option Appointment)
    (r : Reminder) : ReminderStatus × Option String :=
  match findAppt r.appointment_id with
  | none => (.failed, some "Appointment not found")
  | some ap =>
    if r.kind == .email && cfg.resend_key.isSome && ap.customer_email.isSome then
      match emailCall with
      | .ok (code, text) =>
        if decide (200 ≤ code) && decide (code < 300) then (.sent, r.last_error)
        else (.failed, some text)
      | .raised msg => (.failed, some msg)
    else if r.kind == .sms && cfg.tw_sid.isSome && cfg.tw_token.isSome &&
        cfg.tw_from.isSome && ap.customer_phone.isSome && cfg.twilioAvailable then
      match smsCall with
      | .ok _ => (.sent, r.last_error)
      | .raised msg => (.failed, some msg)
    else
      (.sent, some "No provider configured; marked sent in demo")

/-- main.py `send_reminders` (lines 482-537): drains up to 50 queued
reminders through `dispatchReminder` and returns the (sent, failed) counts. -/
def send_reminders (cfg : NotifyConfig) (emailCall : CallOutcome (Int × String))
    (smsCall : CallOutcome Unit) (findAppt : String → Option Appointment)
    (reminders : List Reminder) : Nat × Nat :=
  let queued := (reminders.filter (fun r => r.status == .queued)).take 50
  queued.foldl (fun acc r =>
    match (dispatchReminder cfg emailCall smsCall findAppt r).1 with
    | .sent => (acc.1 + 1, acc.2)
    | _ => (acc.1, acc.2 + 1)) (0, 0)

/-! ### Concrete scenario used by the witnesses
(the worked example of spec §8: Monday 9:00-10:00 block, 15-minute increment,
30-minute service, one pending appointment 9:30-10:00; date 4 = 1970-01-05,
a Monday). -/

def exBusiness : Business :=
  { id := "B1", slug := "acme", deposit_percent_default := 20 }

def exService : Service :=
  { id := "S1", business_id := "B1", price_cents := 10000, duration_min := 30 }

def exStaff : Staff :=
  { id := "T1", business_id := "B1" }

def exBlock : AvailabilityBlock :=
  { start_min := 540, end_min := 600 }

def exDegenerateBlock : AvailabilityBlock :=
  { start_min := 600, end_min := 540 }

def exAvailability : Availability :=
  { business_id := "B1", staff_id := "T1", weekly := [(0, [exBlock])] }

def exAppointment : Appointment :=
  { business_id := "B1", staff_id := "T1", service_id := "S1",
    start_min := 1440 * 4 + 570, end_min := 1440 * 4 + 600, status := .pending }

def exEnv : Env :=
  { businesses := [exBusiness], staffs := [exStaff], services := [exService],
    availabilities := [exAvailability], appointments := [exAppointment] }

def exRequest : BookRequest :=
  { business_slug := "acme", service_id := "S1", staff_id := "T1",
    date := 4, time_hm := 540 }

def exRequestLate : BookRequest :=
  { business_slug := "acme", service_id := "S1", staff_id := "T1",
    date := 4, time_hm := 545 }

/-- The slot list the `slots` endpoint hands to `book`, for a resolved
business and service: generated starts formatted as minutes of day. -/
def availableTimes (env : Env) (biz : Business) (service : Service)
    (staff_id : String) (date : Int) : List Int :=
  (generate_slots env.appointments env.availabilities biz staff_id service date
    (slotIncrementFor env.availabilities biz staff_id)).map (fun t => t % 1440)

/-- The result of booking 09:00 on the example environment without Stripe. -/
def exBookResult : BookResult :=
  bookSuccess exEnv exBusiness exService .unavailable exRequest

def exNotifyConfig : NotifyConfig := {}

def exReminder : Reminder :=
  { business_id := "B1", appointment_id := "A1", kind := .email }

def exFindAppt : String → Option Appointment :=
  fun _ => some exAppointment

/-! ### Helper lemmas -/

theorem mem_slotLoop_conflict_free {appts : List Appointment}
    {day_start dur increment end_min : Int} {s : Int} : ∀ {fuel : Nat} {t : Int},
    s ∈ slotLoop appts day_start dur increment end_min fuel t →
    hasConflict appts s (s + dur) = false := by
  intro fuel
  induction fuel with
  | zero => intro t hs; simp [slotLoop] at hs
  | succ n ih =>
    intro t hs
    simp only [slotLoop] at hs
    by_cases hc : t + dur ≤ end_min
    · rw [if_pos hc] at hs
      rcases List.mem_append.mp hs with h1 | h2
      · rcases hconf : hasConflict appts (day_start + t) (day_start + t + dur) with _ | _
        · simp [hconf] at h1
          subst h1
          exact hconf
        · simp [hconf] at h1
      · exact ih h2
    · rw [if_neg hc] at hs
      simp at hs

theorem overlaps_eq_false_of_conflict_free {appts : List Appointment} {x y : Int}
    (h : hasConflict appts x y = false) {ap : Appointment} (hm : ap ∈ appts) :
    overlaps x y ap.start_min ap.end_min = false := by
  rcases hov : overlaps x y ap.start_min ap.end_min with _ | _
  · rfl
  · have htrue : hasConflict appts x y = true :=
      List.any_eq_true.mpr ⟨ap, hm, hov⟩
    rw [h] at htrue
    exact absurd htrue (by simp)

theorem mem_fetchAppointments {store : List Appointment} {business_id staff_id : String}
    {date : Int} {a : Appointment} (ha : a ∈ store) (hb : a.business_id = business_id)
    (hst : a.staff_id = staff_id) (hstat : isActiveStatus a.status = true)
    (hd : onDate date a = true) :
    a ∈ fetchAppointments store business_id staff_id date := by
  unfold fetchAppointments
  rw [List.mem_filter]
  exact ⟨ha, by simp [hb, hst, hstat, hd]⟩

theorem mem_slotLoop_bounds {appts : List Appointment}
    {day_start dur increment end_min : Int} (hinc : 0 ≤ increment) {s : Int} :
    ∀ {fuel : Nat} {t : Int},
    s ∈ slotLoop appts day_start dur increment end_min fuel t →
    day_start + t ≤ s ∧ s + dur ≤ day_start + end_min := by
  intro fuel
  induction fuel with
  | zero => intro t hs; simp [slotLoop] at hs
  | succ n ih =>
    intro t hs
    simp only [slotLoop] at hs
    by_cases hc : t + dur ≤ end_min
    · rw [if_pos hc] at hs
      rcases List.mem_append.mp hs with h1 | h2
      · have hs_eq : s = day_start + t := by
          rcases hconf : hasConflict appts (day_start + t) (day_start + t + dur) with _ | _
          · simpa [hconf] using h1
          · simp [hconf] at h1
        subst hs_eq
        omega
      · have hb := ih h2
        omega
    · rw [if_neg hc] at hs
      simp at hs

theorem slots_resolved (env : Env) (slug service_id staff_id : String) (date : Int)
    (biz : Business) (hbiz : env.businesses.find? (fun b => b.slug == slug) = some biz)
    (service : Service)
    (hsvc : env.services.find? (fun s => s.id == service_id) = some service) :
    slots env slug service_id staff_id date =
      .ok (availableTimes env biz service staff_id date) := by
  simp [slots, hbiz, hsvc, availableTimes]

/-! ### Claim theorems -/

/-- Claim C1: no slot start returned by the slot generator, taken with its
implied interval of total duration (service duration plus both buffers),
overlaps (half-open) the interval of any stored appointment for the same
(business, staff) whose status is pending or confirmed and whose start
instant falls on the requested date. -/
theorem generate_slots_no_overlap
    (store : List Appointment) (avs : List Availability) (biz : Business)
    (staff_id : String) (service : Service) (date increment : Int) (s : Int)
    (hs : s ∈ generate_slots store avs biz staff_id service date increment)
    (a : Appointment) (ha : a ∈ store) (hb : a.business_id = biz.id)
    (hst : a.staff_id = staff_id) (hstat : isActiveStatus a.status = true)
    (hd : onDate date a = true) :
    overlaps s (s + duration_total service) a.start_min a.end_min = false := by
  unfold generate_slots at hs
  cases hfind : avs.find? (fun av => av.business_id == biz.id && av.staff_id == staff_id) with
  | none => rw [hfind] at hs; simp at hs
  | some av =>
    rw [hfind] at hs
    simp only [List.mem_flatMap] at hs
    obtain ⟨block, _, hsb⟩ := hs
    unfold blockSlots at hsb
    have hcf := mem_slotLoop_conflict_free hsb
    exact overlaps_eq_false_of_conflict_free hcf
      (mem_fetchAppointments ha hb hst hstat hd)

/-- Claim C2: every slot start generated from an availability block lies,
buffers included, entirely inside that block: start at or after the block
start, and start plus total duration at or before the block end (stated on
the instants, i.e. with the day start added to both block bounds).
The hypothesis `1 ≤ increment` is the termination precondition of the loop
(claim C10); it is what makes the produced slot list the full loop output. -/
theorem blockSlots_within_block
    (appts : List Appointment) (day_start increment : Int) (service : Service)
    (block : AvailabilityBlock) (hinc : 1 ≤ increment) (s : Int)
    (hs : s ∈ blockSlots appts day_start (duration_total service) increment block) :
    day_start + block.start_min ≤ s ∧
      s + duration_total service ≤ day_start + block.end_min := by
  unfold blockSlots at hs
  exact mem_slotLoop_bounds (by omega) hs

/-- Claim C6: with no Availability record for the (business, staff) pair, or
with a date whose weekday has no entry in the weekly map, the slot generator
returns the empty list (it is a total function, so it never raises). -/
theorem generate_slots_empty_of_missing_availability
    (store : List Appointment) (avs : List Availability) (biz : Business)
    (staff_id : String) (service : Service) (date increment : Int)
    (h : avs.find? (fun av => av.business_id == biz.id && av.staff_id == staff_id) = none ∨
      ∀ av, avs.find? (fun av => av.business_id == biz.id && av.staff_id == staff_id) =
          some av →
        av.weekly.find? (fun kv => kv.1 == dateWeekday date) = none) :
    generate_slots store avs biz staff_id service date increment = [] := by
  rcases h with h | h
  · simp [generate_slots, h]
  · cases hfind : avs.find? (fun av => av.business_id == biz.id && av.staff_id == staff_id) with
    | none => simp [generate_slots, hfind]
    | some av =>
      have hw := h av hfind
      simp [generate_slots, hfind, weeklyLookup, hw]

/-- Claim C8: a zero- or negative-width availability block (end at or before
start) contributes no slots and causes no failure, for any service whose
duration is at least 5 minutes and whose buffers are non-negative (the
schema bounds): the loop guard is false on the first check. -/
theorem blockSlots_empty_of_degenerate_block
    (appts : List Appointment) (day_start increment : Int) (service : Service)
    (block : AvailabilityBlock) (hblock : block.end_min ≤ block.start_min)
    (hdur : 5 ≤ service.duration_min) (hb1 : 0 ≤ service.buffer_before_min)
    (hb2 : 0 ≤ service.buffer_after_min) :
    blockSlots appts day_start (duration_total service) increment block = [] := by
  have hguard : ¬ (block.start_min + duration_total service ≤ block.end_min) := by
    unfold duration_total
    omega
  unfold blockSlots loopFuel
  simp [slotLoop, hguard]

theorem slotLoop_fuel_succ {appts : List Appointment}
    {day_start dur increment end_min : Int} (hinc : 1 ≤ increment) :
    ∀ fuel : Nat, ∀ t : Int, loopFuel t end_min dur ≤ fuel →
      slotLoop appts day_start dur increment end_min (fuel + 1) t =
        slotLoop appts day_start dur increment end_min fuel t := by
  intro fuel
  induction fuel using Nat.strong_induction_on with
  | _ fuel ih =>
    intro t hf
    have hpos : 1 ≤ loopFuel t end_min dur := by unfold loopFuel; omega
    obtain ⟨g, rfl⟩ : ∃ g, fuel = g + 1 := ⟨fuel - 1, by omega⟩
    by_cases hc : t + dur ≤ end_min
    · simp only [slotLoop, if_pos hc]
      congr 1
      by_cases hnext : t + increment + dur ≤ end_min
      · refine ih g (by omega) (t + increment) ?_
        unfold loopFuel at hf ⊢
        omega
      · cases g with
        | zero => simp [slotLoop, if_neg hnext]
        | succ g' => simp [slotLoop, if_neg hnext]
    · simp only [slotLoop, if_neg hc]

/-- Claim C10: with a slot increment of at least 1 minute the block loop
terminates: evaluating it with any fuel at least the canonical `loopFuel`
yields the same result as the canonical fuel itself, i.e. the loop reaches
its exit and the output is independent of any further fuel (with increment
0 the counter never advances and no such bound exists). -/
theorem slotLoop_terminates
    (appts : List Appointment) (day_start dur increment end_min t : Int)
    (hinc : 1 ≤ increment) (fuel : Nat) (hf : loopFuel t end_min dur ≤ fuel) :
    slotLoop appts day_start dur increment end_min fuel t =
      slotLoop appts day_start dur increment end_min (loopFuel t end_min dur) t := by
  induction fuel with
  | zero => exact absurd hf (by unfold loopFuel; omega)
  | succ n ih =>
    by_cases h : loopFuel t end_min dur ≤ n
    · rw [slotLoop_fuel_succ hinc n t h]
      exact ih h
    · have heq : loopFuel t end_min dur = n + 1 := by omega
      rw [heq]

/-- Claim C3: when business, service and staff all resolve but the requested
time is not among the freshly recomputed slots for the same (business, staff,
service, date), `book` fails with the Conflict (HTTP 409) error. -/
theorem book_conflict_when_time_unavailable
    (env : Env) (pay : PaymentOutcome) (p : BookRequest) (biz : Business)
    (hbiz : env.businesses.find? (fun b => b.slug == p.business_slug) = some biz)
    (service : Service)
    (hsvc : env.services.find? (fun s => s.id == p.service_id) = some service)
    (staff : Staff)
    (hstf : env.staffs.find? (fun s => s.id == p.staff_id) = some staff)
    (hmem : p.time_hm ∉ availableTimes env biz service p.staff_id p.date) :
    book env pay p = .error (.conflict "Selected time is no longer available") := by
  have hslots := slots_resolved env p.business_slug p.service_id p.staff_id p.date
    biz hbiz service hsvc
  simp [book, hbiz, hsvc, hstf, hslots, hmem]

/-- Claim C4: a persisted booking's amount due now is the floor of
price times the effective deposit percent (service override, else business
default) over 100, except that a zero floor falls back to the full price;
the non-negativity hypotheses are the schema validation bounds on price and
percent. -/
theorem book_deposit_amount
    (env : Env) (pay : PaymentOutcome) (p : BookRequest) (biz : Business)
    (hbiz : env.businesses.find? (fun b => b.slug == p.business_slug) = some biz)
    (service : Service)
    (hsvc : env.services.find? (fun s => s.id == p.service_id) = some service)
    (staff : Staff)
    (hstf : env.staffs.find? (fun s => s.id == p.staff_id) = some staff)
    (hprice : 0 ≤ service.price_cents)
    (hpct : 0 ≤ effectiveDepositPercent biz service)
    (res : BookResult) (hok : book env pay p = .ok res) :
    res.appointment.amount_cents_due_now =
      if compute_deposit_cents biz service = 0 then service.price_cents
      else compute_deposit_cents biz service := by
  have hnn : 0 ≤ compute_deposit_cents biz service :=
    Int.fdiv_nonneg (mul_nonneg hprice hpct) (by norm_num)
  have hif : (if compute_deposit_cents biz service ≤ 0 then service.price_cents
      else compute_deposit_cents biz service) =
      (if compute_deposit_cents biz service = 0 then service.price_cents
      else compute_deposit_cents biz service) := by
    by_cases hz : compute_deposit_cents biz service = 0
    · simp [hz]
    · rw [if_neg hz, if_neg (by omega)]
  have hslots := slots_resolved env p.business_slug p.service_id p.staff_id p.date
    biz hbiz service hsvc
  by_cases hm : p.time_hm ∈ availableTimes env biz service p.staff_id p.date
  · simp only [book, hbiz, hsvc, hstf, hslots, hm, if_true, if_pos hm,
      Except.ok.injEq] at hok
    subst hok
    cases pay <;> simp [bookSuccess, bookedAppointment, hif]
  · simp [book, hbiz, hsvc, hstf, hslots, hm] at hok

/-- Claim C5: when business, service and staff resolve and the requested
time is in the freshly recomputed slot list, `book` succeeds, the store
gains exactly the one new appointment, that appointment is pending, and its
end instant is its start instant (date at UTC midnight plus the HH:MM time)
plus the service duration plus both buffers. -/
theorem book_success_persists_pending
    (env : Env) (pay : PaymentOutcome) (p : BookRequest) (biz : Business)
    (hbiz : env.businesses.find? (fun b => b.slug == p.business_slug) = some biz)
    (service : Service)
    (hsvc : env.services.find? (fun s => s.id == p.service_id) = some service)
    (staff : Staff)
    (hstf : env.staffs.find? (fun s => s.id == p.staff_id) = some staff)
    (hmem : p.time_hm ∈ availableTimes env biz service p.staff_id p.date) :
    ∃ res, book env pay p = .ok res ∧
      res.appointments = env.appointments ++ [res.appointment] ∧
      res.appointment.status = .pending ∧
      res.appointment.start_min = dayStartMin p.date + p.time_hm ∧
      res.appointment.end_min =
        dayStartMin p.date + p.time_hm + duration_total service := by
  have hslots := slots_resolved env p.business_slug p.service_id p.staff_id p.date
    biz hbiz service hsvc
  refine ⟨bookSuccess env biz service pay p, ?_, ?_, ?_, ?_, ?_⟩
  · simp [book, hbiz, hsvc, hstf, hslots, hmem]
  · cases pay <;> simp [bookSuccess, bookedAppointment]
  · cases pay <;> simp [bookSuccess, bookedAppointment]
  · cases pay <;> simp [bookSuccess, bookedAppointment]
  · cases pay <;> simp [bookSuccess, bookedAppointment]

/-- Claim C7: when the payment collaborator is unavailable (Stripe library
or key missing) or its session creation raises, a booking that passed
validation still succeeds: the pending appointment is persisted and the
call returns with no payment reference. -/
theorem book_degrades_without_payment
    (env : Env) (pay : PaymentOutcome) (p : BookRequest) (biz : Business)
    (hbiz : env.businesses.find? (fun b => b.slug == p.business_slug) = some biz)
    (service : Service)
    (hsvc : env.services.find? (fun s => s.id == p.service_id) = some service)
    (staff : Staff)
    (hstf : env.staffs.find? (fun s => s.id == p.staff_id) = some staff)
    (hmem : p.time_hm ∈ availableTimes env biz service p.staff_id p.date)
    (hpay : ∀ url sid, pay ≠ .session url sid) :
    ∃ res, book env pay p = .ok res ∧ res.checkout_url = none ∧
      res.appointments = env.appointments ++ [res.appointment] ∧
      res.appointment.status = .pending := by
  have hslots := slots_resolved env p.business_slug p.service_id p.staff_id p.date
    biz hbiz service hsvc
  refine ⟨bookSuccess env biz service pay p, ?_, ?_, ?_, ?_⟩
  · simp [book, hbiz, hsvc, hstf, hslots, hmem]
  · cases pay with
    | session url sid => exact absurd rfl (hpay url sid)
    | unavailable => simp [bookSuccess]
    | sessionError msg => simp [bookSuccess]
  · cases pay <;> simp [bookSuccess, bookedAppointment]
  · cases pay <;> simp [bookSuccess, bookedAppointment]

/-- Claim C9: a queued reminder whose referenced appointment exists, when
dispatched with no notification provider configured for its channel, is
marked sent (the demo-mode fallback), never left queued. -/
theorem dispatchReminder_sent_when_no_provider
    (cfg : NotifyConfig) (emailCall : CallOutcome (Int × String))
    (smsCall : CallOutcome Unit) (findAppt : String → Option Appointment)
    (r : Reminder) (ap : Appointment) (hap : findAppt r.appointment_id = some ap)
    (_hq : r.status = .queued) (hcfg : providerConfigured cfg r.kind = false) :
    (dispatchReminder cfg emailCall smsCall findAppt r).1 = .sent := by
  cases hk : r.kind with
  | email =>
    rw [hk] at hcfg
    simp only [providerConfigured] at hcfg
    simp [dispatchReminder, hap, hk, hcfg,
      show (ReminderKind.email == ReminderKind.sms) = false from rfl]
  | sms =>
    rw [hk] at hcfg
    simp only [providerConfigured, Bool.and_eq_false_iff] at hcfg
    rcases hcfg with ((h | h) | h) | h <;>
      simp [dispatchReminder, hap, hk, h,
        show (ReminderKind.sms == ReminderKind.email) = false from rfl]

/-! ### Witnesses -/

/-- Witness for C1 on the example scenario: slot 09:00 (instant 6300) is
generated and does not overlap the stored 09:30-10:00 pending appointment. -/
theorem generate_slots_no_overlap_witness :
    overlaps 6300 (6300 + duration_total exService) exAppointment.start_min
      exAppointment.end_min = false :=
  generate_slots_no_overlap [exAppointment] [exAvailability] exBusiness "T1" exService
    4 15 6300 (by decide) exAppointment (by decide) rfl rfl (by decide) (by decide)

/-- Witness for C2: slot 6300 from the 9:00-10:00 block lies inside it. -/
theorem blockSlots_within_block_witness :
    5760 + exBlock.start_min ≤ 6300 ∧
      6300 + duration_total exService ≤ 5760 + exBlock.end_min :=
  blockSlots_within_block [] 5760 15 exService exBlock (by decide) 6300 (by decide)

/-- Witness for C3: requesting 09:05 (minute 545), which is not a generated
slot, yields the Conflict error. -/
theorem book_conflict_witness :
    book exEnv .unavailable exRequestLate =
      .error (.conflict "Selected time is no longer available") :=
  book_conflict_when_time_unavailable exEnv .unavailable exRequestLate exBusiness rfl
    exService rfl exStaff rfl (by decide)

/-- Witness for C4: price 10000, default deposit 20 percent, due now 2000. -/
theorem book_deposit_witness :
    exBookResult.appointment.amount_cents_due_now =
      if compute_deposit_cents exBusiness exService = 0 then exService.price_cents
      else compute_deposit_cents exBusiness exService :=
  book_deposit_amount exEnv .unavailable exRequest exBusiness rfl exService rfl
    exStaff rfl (by decide) (by decide) exBookResult (by rfl)

/-- Witness for C5: booking the listed 09:00 slot succeeds and persists the
pending appointment. -/
theorem book_success_witness :
    ∃ res, book exEnv .unavailable exRequest = Except.ok res ∧
      res.appointments = exEnv.appointments ++ [res.appointment] ∧
      res.appointment.status = .pending ∧
      res.appointment.start_min = dayStartMin exRequest.date + exRequest.time_hm ∧
      res.appointment.end_min =
        dayStartMin exRequest.date + exRequest.time_hm + duration_total exService :=
  book_success_persists_pending exEnv .unavailable exRequest exBusiness rfl
    exService rfl exStaff rfl (by decide)

/-- Witness for C6: no availability record at all yields the empty slot list. -/
theorem generate_slots_empty_witness :
    generate_slots [] [] exBusiness "T1" exService 4 15 = [] :=
  generate_slots_empty_of_missing_availability [] [] exBusiness "T1" exService 4 15
    (Or.inl rfl)

/-- Witness for C7: a raising payment collaborator still yields a persisted
pending appointment and no checkout URL. -/
theorem book_degrades_witness :
    ∃ res, book exEnv (.sessionError "boom") exRequest = Except.ok res ∧
      res.checkout_url = none ∧
      res.appointments = exEnv.appointments ++ [res.appointment] ∧
      res.appointment.status = .pending :=
  book_degrades_without_payment exEnv (.sessionError "boom") exRequest exBusiness rfl
    exService rfl exStaff rfl (by decide)
    (fun url sid h => PaymentOutcome.noConfusion h)

/-- Witness for C8: the inverted 10:00-9:00 block contributes no slots. -/
theorem blockSlots_degenerate_witness :
    blockSlots [] 5760 (duration_total exService) 15 exDegenerateBlock = [] :=
  blockSlots_empty_of_degenerate_block [] 5760 15 exService exDegenerateBlock
    (by decide) (by decide) (by decide) (by decide)

/-- Witness for C9: an email reminder with no Resend key configured is
dispatched to sent status. -/
theorem dispatch_sent_witness :
    (dispatchReminder exNotifyConfig (.raised "e") (.raised "s") exFindAppt
      exReminder).1 = .sent :=
  dispatchReminder_sent_when_no_provider exNotifyConfig (.raised "e") (.raised "s")
    exFindAppt exReminder exAppointment rfl rfl (by decide)

/-- Witness for C10: with increment 15 the 9:00-10:00 loop is stable at any
fuel at least the canonical one. -/
theorem slotLoop_terminates_witness :
    slotLoop [] 5760 30 15 600 40 540 =
      slotLoop [] 5760 30 15 600 (loopFuel 540 600 30) 540 :=
  slotLoop_terminates [] 5760 30 15 600 540 (by decide) 40 (by decide)

end BookingSaaS
